import Mathlib

/-!
Shallow embedding of the risk-managed trade-sizing and circuit-breaker core
of the stackalpha repository (src/app/services/circuit_breaker.py and
src/app/services/trading/risk_management.py).

Conventions of the embedding:
* Python floats are modelled as rationals.
* datetime.utcnow() is modelled by an explicit `now : Nat` parameter
  (seconds since an arbitrary epoch).
* The async database fetches are modelled by passing the fetched data
  explicitly: `get_portfolio_metrics` receives the already-fetched list of
  open trades and the newest-first list of non-null realized pnls of closed
  trades, mirroring the two ORM queries it issues; `calculate_position_size`
  and `validate_trade` receive the `RiskLimits` and `PortfolioMetrics` that
  the Python methods fetch through `get_risk_limits` / `get_portfolio_metrics`.
* A Python statement that raises is modelled with `Except`: `resume_trading`
  raises ValueError; float division raises ZeroDivisionError when the divisor
  is exactly zero, modelled by `SizingError.divisionByZero`.
* Python truthiness of an optional float (e.g. `if not stop_loss_price`,
  `if t.entry_price and t.stop_loss_price`, `if duration_seconds`) is false
  exactly for None and 0; it is modelled by `truthy` / the zero test.
* Interpolated numeric values in rejection-reason strings are dropped; the
  static message prefix identifies the reason.
-/

namespace StackAlpha

/-- Status enum of circuit_breaker.py (CircuitBreakerStatus). -/
inductive CircuitBreakerStatus where
  | active
  | paused
  | killed
deriving DecidableEq

/-- System health enum of circuit_breaker.py (SystemHealth). -/
inductive SystemHealth where
  | healthy
  | degraded
  | critical
  | offline
deriving DecidableEq

/-- Per-account circuit breaker state (CircuitBreakerState dataclass).
Timestamps are seconds as `Nat`. -/
structure CircuitBreakerState where
  status : CircuitBreakerStatus
  paused_reason : Option String := none
  paused_at : Option Nat := none
  paused_by : Option String := none
  auto_resume_at : Option Nat := none
  system_health : SystemHealth := SystemHealth.healthy
deriving DecidableEq

/-- CircuitBreakerService.is_trading_allowed. The paused-reason message drops
the interpolated stored reason. -/
def is_trading_allowed (state : CircuitBreakerState) : Bool × Option String :=
  if state.status = CircuitBreakerStatus.killed then
    (false, some "Circuit breaker: Kill switch activated")
  else if state.status = CircuitBreakerStatus.paused then
    (false, some "Trading paused")
  else if state.system_health = SystemHealth.critical then
    (false, some "System health: Critical")
  else if state.system_health = SystemHealth.offline then
    (false, some "System offline")
  else
    (true, none)

/-- CircuitBreakerService.pause_trading. `if duration_seconds:` is Python
truthiness, so a duration of 0 behaves like None (no auto_resume_at). -/
def pause_trading (state : CircuitBreakerState) (now : Nat) (reason : String)
    (paused_by : String) (duration_seconds : Option Nat) : CircuitBreakerState :=
  { state with
    status := CircuitBreakerStatus.paused
    paused_reason := some reason
    paused_at := some now
    paused_by := some paused_by
    auto_resume_at :=
      match duration_seconds with
      | some d => if d = 0 then none else some (now + d)
      | none => none }

/-- CircuitBreakerService.resume_trading. Raising ValueError is modelled by
`Except.error`; the raise happens before any mutation, so on error the state
is untouched. -/
def resume_trading (state : CircuitBreakerState) : Except String CircuitBreakerState :=
  if state.status = CircuitBreakerStatus.killed then
    Except.error "Cannot resume while kill switch is active"
  else
    Except.ok
      { state with
        status := CircuitBreakerStatus.active
        paused_reason := none
        paused_at := none
        paused_by := none
        auto_resume_at := none }

/-- CircuitBreakerService.kill_switch, restricted to its effect on the
breaker state. The close_positions flag only marks open trades as CLOSING in
the trade ledger (a side effect outside this state) and does not change the
breaker state. -/
def kill_switch (state : CircuitBreakerState) (now : Nat)
    (close_positions : Bool) : CircuitBreakerState :=
  { state with
    status := CircuitBreakerStatus.killed
    paused_reason := some "EMERGENCY: Kill switch activated"
    paused_at := some now
    paused_by := some "kill_switch" }

/-- CircuitBreakerService.deactivate_kill_switch. -/
def deactivate_kill_switch (state : CircuitBreakerState) : CircuitBreakerState :=
  { state with
    status := CircuitBreakerStatus.active
    paused_reason := none
    paused_at := none
    paused_by := none }

/-- Helper for the auto-resume condition: auto_resume_at is set and
`datetime.utcnow() >= auto_resume_at`. -/
def autoResumeDue (auto_resume_at : Option Nat) (now : Nat) : Bool :=
  match auto_resume_at with
  | some t => decide (now ≥ t)
  | none => false

/-- CircuitBreakerService.check_auto_triggers, translated line by line:
first `if state.status != ACTIVE: return state`, then the auto-resume check
requiring `state.status == PAUSED`, then the (commented-out in source)
risk-limit triggers, then `return state`. -/
def check_auto_triggers (state : CircuitBreakerState) (now : Nat) :
    Except String CircuitBreakerState :=
  if state.status ≠ CircuitBreakerStatus.active then
    Except.ok state
  else if state.status = CircuitBreakerStatus.paused ∧
      autoResumeDue state.auto_resume_at now = true then
    resume_trading state
  else
    Except.ok state

/-- Sizing method enum of risk_management.py (PositionSizingMethod). -/
inductive PositionSizingMethod where
  | fixed_amount
  | fixed_percent
  | kelly_criterion
  | risk_parity
deriving DecidableEq

/-- RiskLimits dataclass with its default values. -/
structure RiskLimits where
  max_position_size_usd : ℚ := 10000
  max_position_size_percent : ℚ := 10
  position_sizing_method : PositionSizingMethod := PositionSizingMethod.fixed_percent
  max_portfolio_heat : ℚ := 50
  max_open_positions : Nat := 5
  max_leverage : Nat := 10
  max_daily_loss_usd : ℚ := 500
  max_daily_loss_percent : ℚ := 5
  max_weekly_loss_percent : ℚ := 10
  max_monthly_loss_percent : ℚ := 20
  min_risk_reward_ratio : ℚ := 3 / 2
  max_correlated_positions : Nat := 2
  max_single_asset_exposure_percent : ℚ := 20
  max_consecutive_losses : Nat := 3
  trading_paused : Bool := false
deriving DecidableEq

/-- PortfolioMetrics dataclass. -/
structure PortfolioMetrics where
  total_equity : ℚ
  total_margin_used : ℚ
  total_unrealized_pnl : ℚ
  total_realized_pnl_today : ℚ
  open_positions_count : Nat
  portfolio_heat : ℚ
  margin_utilization : ℚ
  daily_pnl : ℚ
  weekly_pnl : ℚ
  monthly_pnl : ℚ
  max_drawdown : ℚ
  consecutive_losses : Nat
deriving DecidableEq

/-- PositionSizingResult dataclass. -/
structure PositionSizingResult where
  position_size_usd : ℚ
  position_size_percent : ℚ
  risk_amount : ℚ
  approved : Bool
  rejection_reason : Option String := none
deriving DecidableEq

/-- An open trade record as fetched for get_portfolio_metrics; nullable
columns of the Trade model are Options. -/
structure OpenTrade where
  position_size_usd : ℚ
  entry_price : Option ℚ
  stop_loss_price : Option ℚ
  margin_used : Option ℚ
  unrealized_pnl : Option ℚ
deriving DecidableEq

/-- Python truthiness of an optional float: None and 0 are falsy. -/
def truthy (x : Option ℚ) : Bool :=
  match x with
  | none => false
  | some v => if v = 0 then false else true

/-- Quote-denominated risk of one open position, as in risk_management.py
line 184: abs(position_size_usd * (entry_price - (stop_loss_price or 0))).
Inside the truthiness filter entry_price is a nonzero some, so getD 0 yields
its value. -/
def position_risk (t : OpenTrade) : ℚ :=
  |t.position_size_usd * (t.entry_price.getD 0 - t.stop_loss_price.getD 0)|

/-- Total risk over open trades (risk_management.py lines 183-187): sum of
position_risk over trades whose entry_price and stop_loss_price are truthy. -/
def total_risk (open_trades : List OpenTrade) : ℚ :=
  ((open_trades.filter
      (fun t => truthy t.entry_price && truthy t.stop_loss_price)).map
    position_risk).sum

/-- Loss streak of a newest-first pnl list: count leading entries with
pnl < 0, stopping at the first non-loss (the for/break loop of
risk_management.py lines 170-175). -/
def countLeadingLosses : List ℚ → Nat
  | [] => 0
  | pnl :: rest => if pnl < 0 then countLeadingLosses rest + 1 else 0

/-- The consecutive-losses figure of get_portfolio_metrics: the ORM query
orders closed trades with non-null realized_pnl newest-first and applies
limit(10), so the streak is computed on the first 10 entries. -/
def consecutive_losses_of (recent_pnls : List ℚ) : Nat :=
  countLeadingLosses (recent_pnls.take 10)

/-- RiskManagementService.get_portfolio_metrics as a pure function of the
fetched data: the open trades, the newest-first non-null realized pnls of
closed trades, and the daily/weekly/monthly realized-pnl sums (the three
window queries). -/
def get_portfolio_metrics (open_trades : List OpenTrade)
    (recent_pnls : List ℚ) (daily_pnl weekly_pnl monthly_pnl : ℚ) :
    PortfolioMetrics :=
  let consecutive_losses := consecutive_losses_of recent_pnls
  let total_margin := (open_trades.map (fun t => t.margin_used.getD 0)).sum
  let total_unrealized := (open_trades.map (fun t => t.unrealized_pnl.getD 0)).sum
  let total_equity := total_margin + total_unrealized + daily_pnl
  let portfolio_heat :=
    if total_equity > 0 then total_risk open_trades / total_equity * 100 else 0
  let max_margin := total_equity * 10
  let margin_utilization :=
    if max_margin > 0 then total_margin / max_margin * 100 else 0
  { total_equity := total_equity
    total_margin_used := total_margin
    total_unrealized_pnl := total_unrealized
    total_realized_pnl_today := daily_pnl
    open_positions_count := open_trades.length
    portfolio_heat := portfolio_heat
    margin_utilization := margin_utilization
    daily_pnl := daily_pnl
    weekly_pnl := weekly_pnl
    monthly_pnl := monthly_pnl
    max_drawdown := 0
    consecutive_losses := consecutive_losses }

/-- A rejected PositionSizingResult (the all-zero records of
calculate_position_size). -/
def reject (reason : String) : PositionSizingResult :=
  { position_size_usd := 0
    position_size_percent := 0
    risk_amount := 0
    approved := false
    rejection_reason := some reason }

/-- Error raised by float division by zero in Python. -/
inductive SizingError where
  | divisionByZero
deriving DecidableEq

/-- Tail of calculate_position_size (risk_management.py lines 324-358): the
hard clamps, percent and risk-amount computation, and the portfolio-heat
check. Python min(a, b, c) is min a (min b c). -/
def sizing_tail (limits : RiskLimits) (metrics : PortfolioMetrics)
    (risk_percent raw_size : ℚ) : PositionSizingResult :=
  let position_size_usd :=
    min raw_size
      (min limits.max_position_size_usd
        (metrics.total_equity * limits.max_position_size_percent / 100))
  let position_size_percent :=
    if metrics.total_equity > 0 then position_size_usd / metrics.total_equity * 100 else 0
  let risk_amount := position_size_usd * risk_percent
  let new_portfolio_heat :=
    if metrics.total_equity > 0 then
      metrics.portfolio_heat + risk_amount / metrics.total_equity * 100
    else 0
  if new_portfolio_heat > limits.max_portfolio_heat then
    reject "Portfolio heat limit exceeded"
  else
    { position_size_usd := position_size_usd
      position_size_percent := position_size_percent
      risk_amount := risk_amount
      approved := true
      rejection_reason := none }

/-- RiskManagementService.calculate_position_size. Division by an exactly
zero divisor raises ZeroDivisionError in Python, modelled by Except.error:
at entry_price = 0 the risk_percent computation raises, and in the
RISK_PARITY branch the division by risk_percent raises when risk_percent = 0
(there is no guard in the source). -/
def calculate_position_size (limits : RiskLimits) (metrics : PortfolioMetrics)
    (entry_price stop_loss_price signal_confidence : ℚ) :
    Except SizingError PositionSizingResult :=
  if limits.trading_paused then
    Except.ok (reject "Trading is paused by circuit breaker")
  else if metrics.consecutive_losses ≥ limits.max_consecutive_losses then
    Except.ok (reject "Circuit breaker: consecutive losses")
  else
    let daily_loss_percent :=
      if metrics.total_equity > 0 ∧ metrics.daily_pnl < 0 then
        |metrics.daily_pnl| / metrics.total_equity * 100
      else 0
    if daily_loss_percent ≥ limits.max_daily_loss_percent then
      Except.ok (reject "Daily loss limit reached")
    else if metrics.open_positions_count ≥ limits.max_open_positions then
      Except.ok (reject "Max open positions reached")
    else if entry_price = 0 then
      Except.error SizingError.divisionByZero
    else
      let risk_per_share := |entry_price - stop_loss_price|
      let risk_percent := risk_per_share / entry_price
      let risk_reward_ratio : ℚ := 3 / 2
      if risk_reward_ratio < limits.min_risk_reward_ratio then
        Except.ok (reject "Risk-reward ratio too low")
      else
        match limits.position_sizing_method with
        | PositionSizingMethod.fixed_amount =>
            Except.ok (sizing_tail limits metrics risk_percent
              (min limits.max_position_size_usd
                (metrics.total_equity * limits.max_position_size_percent / 100)))
        | PositionSizingMethod.fixed_percent =>
            Except.ok (sizing_tail limits metrics risk_percent
              (metrics.total_equity * limits.max_position_size_percent / 100))
        | PositionSizingMethod.kelly_criterion =>
            let win_prob := signal_confidence
            let loss_prob := 1 - win_prob
            let avg_win := risk_reward_ratio
            let avg_loss : ℚ := 1
            let kelly_fraction := (win_prob * avg_win - loss_prob * avg_loss) / avg_win
            let kelly_clamped := max 0 (min kelly_fraction (1 / 4))
            Except.ok (sizing_tail limits metrics risk_percent
              (metrics.total_equity * kelly_clamped))
        | PositionSizingMethod.risk_parity =>
            if risk_percent = 0 then
              Except.error SizingError.divisionByZero
            else
              Except.ok (sizing_tail limits metrics risk_percent
                ((metrics.total_equity * 1 / 100) / risk_percent))

/-- RiskManagementService.validate_trade. The ordered checks are written as
a chain of continuations (checkN is what runs when check N-1 passes),
mirroring the early returns of the Python method. -/
def validate_trade (limits : RiskLimits) (metrics : PortfolioMetrics)
    (position_size_usd entry_price : ℚ)
    (stop_loss_price take_profit_price : Option ℚ) : Bool × Option String :=
  let check8 : Bool × Option String :=
    if truthy stop_loss_price && truthy take_profit_price then
      let risk := |entry_price - stop_loss_price.getD 0|
      let reward := |take_profit_price.getD 0 - entry_price|
      let rr_ratio := if risk > 0 then reward / risk else 0
      if rr_ratio < limits.min_risk_reward_ratio then
        (false, some "Risk-reward too low")
      else (true, none)
    else (true, none)
  let check7 : Bool × Option String :=
    if truthy stop_loss_price = false then (false, some "Stop loss is required")
    else check8
  let check6b : Bool × Option String :=
    if (if metrics.total_equity > 0 then
          position_size_usd / metrics.total_equity * 100
        else 0) > limits.max_position_size_percent then
      (false, some "Position % too large")
    else check7
  let check6a : Bool × Option String :=
    if position_size_usd > limits.max_position_size_usd then
      (false, some "Position too large")
    else check6b
  let check5 : Bool × Option String :=
    if metrics.consecutive_losses ≥ limits.max_consecutive_losses then
      (false, some "Consecutive losses")
    else check6a
  let check4 : Bool × Option String :=
    if metrics.weekly_pnl < 0 then
      if (if metrics.total_equity > 0 then
            |metrics.weekly_pnl| / metrics.total_equity * 100
          else 0) ≥ limits.max_weekly_loss_percent then
        (false, some "Weekly loss limit")
      else check5
    else check5
  let check3 : Bool × Option String :=
    if metrics.daily_pnl < 0 then
      if |metrics.daily_pnl| ≥ limits.max_daily_loss_usd then
        (false, some "Daily loss limit")
      else if (if metrics.total_equity > 0 then
            |metrics.daily_pnl| / metrics.total_equity * 100
          else 0) ≥ limits.max_daily_loss_percent then
        (false, some "Daily loss %")
      else check4
    else check4
  if limits.trading_paused then (false, some "Trading is paused")
  else if metrics.open_positions_count ≥ limits.max_open_positions then
    (false, some "Max open positions")
  else check3

/-- Modelled from the spec: the per-unit risk form of section 4.1
(risk = abs(position_size_quote times (entry minus stop) over entry)),
stated by the spec to be equivalent to the quote-denominated form used by
the source; defined here only to compare the two forms. -/
def position_risk_per_unit (t : OpenTrade) : ℚ :=
  |t.position_size_usd * (t.entry_price.getD 0 - t.stop_loss_price.getD 0)
    / t.entry_price.getD 0|

/-- Modelled from the spec: total per-unit risk, summed over the same
filtered open positions as total_risk. -/
def total_risk_per_unit (open_trades : List OpenTrade) : ℚ :=
  ((open_trades.filter
      (fun t => truthy t.entry_price && truthy t.stop_loss_price)).map
    position_risk_per_unit).sum

/-- Modelled from the spec: the consecutive-losses count over the FULL
closed-trade history, newest first, with no window (sections 3 and the C5
claim text say there is no fixed window). -/
def consecutive_losses_spec (pnls_newest_first : List ℚ) : Nat :=
  countLeadingLosses pnls_newest_first

/-- A fresh default breaker state (lazily created as ACTIVE / HEALTHY). -/
def fresh_state : CircuitBreakerState :=
  { status := CircuitBreakerStatus.active }

/-- A breaker state on which the kill switch has fired. -/
def killed_state : CircuitBreakerState :=
  { status := CircuitBreakerStatus.killed
    paused_reason := some "EMERGENCY: Kill switch activated"
    paused_at := some 5
    paused_by := some "kill_switch" }

/-- A benign portfolio snapshot: 10000 equity, no open positions, no losses. -/
def demo_metrics : PortfolioMetrics :=
  { total_equity := 10000
    total_margin_used := 10000
    total_unrealized_pnl := 0
    total_realized_pnl_today := 0
    open_positions_count := 0
    portfolio_heat := 0
    margin_utilization := 10
    daily_pnl := 0
    weekly_pnl := 0
    monthly_pnl := 0
    max_drawdown := 0
    consecutive_losses := 0 }

/-- Default risk limits (the RiskLimits dataclass defaults). -/
def demo_limits : RiskLimits := {}

/-- Default limits with the RISK_PARITY sizing method selected. -/
def risk_parity_limits : RiskLimits :=
  { position_sizing_method := PositionSizingMethod.risk_parity }

/-- The sizing result produced for default limits, the benign snapshot,
entry 100 and stop 95: size 1000, 10 percent of equity, 50 at risk. -/
def c3_result : PositionSizingResult :=
  { position_size_usd := 1000
    position_size_percent := 10
    risk_amount := 50
    approved := true
    rejection_reason := none }

/-- An open position: 10 quote units of size, entry 2, stop 1, margin 100. -/
def trade0 : OpenTrade :=
  { position_size_usd := 10
    entry_price := some 2
    stop_loss_price := some 1
    margin_used := some 100
    unrealized_pnl := some 0 }

/-- Claim C1: pausing an account at time 0 for 60 seconds sets
auto_resume_at = 60 and status Paused, but check_auto_triggers at time 61
(strictly after auto_resume_at) returns the state unchanged and still
Paused: the early return on status different from Active makes the
auto-resume branch unreachable, so the claimed transition back to Active
never happens. -/
theorem c1_check_auto_triggers_never_resumes :
    (pause_trading fresh_state 0 "test pause" "system" (some 60)).status
        = CircuitBreakerStatus.paused ∧
    (pause_trading fresh_state 0 "test pause" "system" (some 60)).auto_resume_at
        = some 60 ∧
    check_auto_triggers (pause_trading fresh_state 0 "test pause" "system" (some 60)) 61
        = Except.ok (pause_trading fresh_state 0 "test pause" "system" (some 60)) := by
  refine ⟨rfl, rfl, rfl⟩

/-- Claim C2: with the RISK_PARITY method, a stop equal to the entry
(risk_percent = 0) and every earlier admission check passing, the sizing
call raises ZeroDivisionError (modelled as Except.error) instead of
returning a rejection: the source has no guard on risk_percent. -/
theorem c2_risk_parity_zero_stop_raises :
    calculate_position_size risk_parity_limits demo_metrics 100 100 (7 / 10)
      = Except.error SizingError.divisionByZero := by
  simp [calculate_position_size, risk_parity_limits, demo_metrics]

/-- Claim C6: resume_trading fails with the InvalidTransition error exactly
when the status is Killed (the raise precedes any mutation, so the state is
untouched); on any other status it succeeds, setting status Active and
clearing paused_reason, paused_at, paused_by and auto_resume_at. -/
theorem c6_resume_killed_fails_otherwise_clears (s : CircuitBreakerState) :
    (s.status = CircuitBreakerStatus.killed →
      resume_trading s = Except.error "Cannot resume while kill switch is active") ∧
    (s.status ≠ CircuitBreakerStatus.killed →
      resume_trading s = Except.ok
        { s with
          status := CircuitBreakerStatus.active
          paused_reason := none
          paused_at := none
          paused_by := none
          auto_resume_at := none }) := by
  constructor
  · intro h
    simp [resume_trading, h]
  · intro h
    simp [resume_trading, h]

/-- Witness for C6 at concrete states: a killed account and a paused
account. -/
theorem c6_witness :
    resume_trading killed_state
        = Except.error "Cannot resume while kill switch is active" ∧
    resume_trading (pause_trading fresh_state 0 "x" "system" (some 60))
        = Except.ok
          { pause_trading fresh_state 0 "x" "system" (some 60) with
            status := CircuitBreakerStatus.active
            paused_reason := none
            paused_at := none
            paused_by := none
            auto_resume_at := none } :=
  ⟨(c6_resume_killed_fails_otherwise_clears killed_state).1 rfl,
   (c6_resume_killed_fails_otherwise_clears
      (pause_trading fresh_state 0 "x" "system" (some 60))).2 (by decide)⟩

/-- Claim C7: kill_switch sets the status to Killed from every prior state,
and applying it again yields the same resulting status (idempotent on the
status). -/
theorem c7_kill_switch_always_kills (s : CircuitBreakerState)
    (now now2 : Nat) (b b2 : Bool) :
    (kill_switch s now b).status = CircuitBreakerStatus.killed ∧
    (kill_switch (kill_switch s now b) now2 b2).status
      = (kill_switch s now b).status :=
  ⟨rfl, rfl⟩

/-- Claim C4: whenever trading_paused is set in the risk limits, both the
sizer and the validator return their paused rejection unconditionally,
whatever the snapshot and trade inputs are. -/
theorem c4_trading_paused_always_rejects (l : RiskLimits) (m : PortfolioMetrics)
    (e s c pz ep : ℚ) (stp tp : Option ℚ)
    (h : l.trading_paused = true) :
    calculate_position_size l m e s c
        = Except.ok (reject "Trading is paused by circuit breaker") ∧
    validate_trade l m pz ep stp tp = (false, some "Trading is paused") := by
  constructor
  · simp [calculate_position_size, h]
  · simp [validate_trade, h]

/-- Witness for C4 at a concrete paused policy and arbitrary-looking
inputs. -/
theorem c4_witness :
    calculate_position_size { trading_paused := true } demo_metrics 100 95 (7 / 10)
        = Except.ok (reject "Trading is paused by circuit breaker") ∧
    validate_trade { trading_paused := true } demo_metrics 1000 100 (some 95) (some 120)
        = (false, some "Trading is paused") :=
  c4_trading_paused_always_rejects { trading_paused := true } demo_metrics
    100 95 (7 / 10) 1000 100 (some 95) (some 120) rfl

/-- Claim C9: when the snapshot shows a negative daily pnl whose magnitude
reaches max_daily_loss_usd, and the two earlier checks (trading paused,
open-position count) pass, validate_trade denies with the absolute-dollar
daily-loss reason; no hypothesis on the percent-based limit is needed, so
the dollar breach alone suffices. -/
theorem c9_daily_dollar_loss_denies (l : RiskLimits) (m : PortfolioMetrics)
    (pz ep : ℚ) (stp tp : Option ℚ)
    (h1 : l.trading_paused = false)
    (h2 : m.open_positions_count < l.max_open_positions)
    (h3 : m.daily_pnl < 0)
    (h4 : |m.daily_pnl| ≥ l.max_daily_loss_usd) :
    validate_trade l m pz ep stp tp = (false, some "Daily loss limit") := by
  simp only [validate_trade]
  rw [if_neg (by simp [h1]), if_neg (not_le.mpr h2), if_pos h3, if_pos h4]

/-- Witness for C9: daily pnl of -600 against a 500 dollar limit on a
100000-equity account, where the percent loss (0.6 percent) stays below the
5 percent limit, still denies with the dollar reason. -/
theorem c9_witness :
    validate_trade demo_limits
      { demo_metrics with total_equity := 100000, daily_pnl := -600 }
      1000 100 (some 95) none
      = (false, some "Daily loss limit") :=
  c9_daily_dollar_loss_denies demo_limits
    { demo_metrics with total_equity := 100000, daily_pnl := -600 }
    1000 100 (some 95) none rfl (by decide) (by decide) (by decide)

/-- Claim C10: a provided stop_loss_price equal to 0 is falsy in Python, so
when every preceding check passes, validate_trade denies with the
stop-loss-required reason exactly as for an absent stop, and the risk-reward
check is never reached. The hypotheses are the pass conditions of checks 1
through 6 as written in the source. -/
theorem c10_zero_stop_denies (l : RiskLimits) (m : PortfolioMetrics)
    (pz ep : ℚ) (tp : Option ℚ)
    (h1 : l.trading_paused = false)
    (h2 : m.open_positions_count < l.max_open_positions)
    (h3a : m.daily_pnl < 0 → ¬(|m.daily_pnl| ≥ l.max_daily_loss_usd))
    (h3b : m.daily_pnl < 0 →
      ¬((if m.total_equity > 0 then |m.daily_pnl| / m.total_equity * 100 else 0)
          ≥ l.max_daily_loss_percent))
    (h4 : m.weekly_pnl < 0 →
      ¬((if m.total_equity > 0 then |m.weekly_pnl| / m.total_equity * 100 else 0)
          ≥ l.max_weekly_loss_percent))
    (h5 : m.consecutive_losses < l.max_consecutive_losses)
    (h6a : ¬(pz > l.max_position_size_usd))
    (h6b : ¬((if m.total_equity > 0 then pz / m.total_equity * 100 else 0)
          > l.max_position_size_percent)) :
    validate_trade l m pz ep (some 0) tp = (false, some "Stop loss is required") := by
  have hstop : truthy (some (0 : ℚ)) = false := by decide
  simp only [validate_trade]
  rw [if_neg (by simp [h1]), if_neg (not_le.mpr h2)]
  by_cases hd : m.daily_pnl < 0
  · rw [if_pos hd, if_neg (h3a hd), if_neg (h3b hd)]
    by_cases hw : m.weekly_pnl < 0
    · rw [if_pos hw, if_neg (h4 hw), if_neg (not_le.mpr h5), if_neg h6a,
        if_neg h6b, if_pos hstop]
    · rw [if_neg hw, if_neg (not_le.mpr h5), if_neg h6a, if_neg h6b, if_pos hstop]
  · rw [if_neg hd]
    by_cases hw : m.weekly_pnl < 0
    · rw [if_pos hw, if_neg (h4 hw), if_neg (not_le.mpr h5), if_neg h6a,
        if_neg h6b, if_pos hstop]
    · rw [if_neg hw, if_neg (not_le.mpr h5), if_neg h6a, if_neg h6b, if_pos hstop]

/-- Witness for C10: a benign snapshot, a provided-but-zero stop. -/
theorem c10_witness :
    validate_trade demo_limits demo_metrics 1000 100 (some 0) none
      = (false, some "Stop loss is required") :=
  c10_zero_stop_denies demo_limits demo_metrics 1000 100 none rfl (by decide)
    (by decide) (by decide) (by decide) (by decide) (by decide)
    (by norm_num [demo_metrics, demo_limits])

/-- If the clamping tail approves, the resulting size is at most the
dollar cap and at most equity times the percent cap over 100, and with
positive equity the percent is at most the percent cap. -/
theorem sizing_tail_approved_bounds (l : RiskLimits) (m : PortfolioMetrics)
    (rp raw : ℚ) (h : (sizing_tail l m rp raw).approved = true) :
    (sizing_tail l m rp raw).position_size_usd ≤ l.max_position_size_usd ∧
    (sizing_tail l m rp raw).position_size_usd
        ≤ m.total_equity * l.max_position_size_percent / 100 ∧
    (0 < m.total_equity →
      (sizing_tail l m rp raw).position_size_percent
        ≤ l.max_position_size_percent) := by
  have hmin1 :
      min raw (min l.max_position_size_usd
          (m.total_equity * l.max_position_size_percent / 100))
        ≤ l.max_position_size_usd :=
    le_trans (min_le_right _ _) (min_le_left _ _)
  have hmin2 :
      min raw (min l.max_position_size_usd
          (m.total_equity * l.max_position_size_percent / 100))
        ≤ m.total_equity * l.max_position_size_percent / 100 :=
    le_trans (min_le_right _ _) (min_le_right _ _)
  simp only [sizing_tail] at h ⊢
  split_ifs at h ⊢ with hq hh hh2
  · simp [reject] at h
  · refine ⟨hmin1, hmin2, fun _ => ?_⟩
    have hne : m.total_equity ≠ 0 := ne_of_gt hq
    calc
      min raw (min l.max_position_size_usd
            (m.total_equity * l.max_position_size_percent / 100))
          / m.total_equity * 100
          ≤ (m.total_equity * l.max_position_size_percent / 100)
              / m.total_equity * 100 := by gcongr
      _ = l.max_position_size_percent := by field_simp; ring
  · simp [reject] at h
  · exact ⟨hmin1, hmin2, fun hq2 => absurd hq2 hq⟩

/-- Claim C3: whenever calculate_position_size returns an approved result,
whatever the sizing method, the size respects both hard caps, and with
positive equity the percent respects the percent cap. -/
theorem c3_approved_size_within_caps (l : RiskLimits) (m : PortfolioMetrics)
    (e s c : ℚ) (r : PositionSizingResult)
    (hok : calculate_position_size l m e s c = Except.ok r)
    (happ : r.approved = true) :
    r.position_size_usd ≤ l.max_position_size_usd ∧
    r.position_size_usd ≤ m.total_equity * l.max_position_size_percent / 100 ∧
    (0 < m.total_equity →
      r.position_size_percent ≤ l.max_position_size_percent) := by
  simp only [calculate_position_size] at hok
  repeat' split at hok
  all_goals
    first
    | exact Except.noConfusion hok
    | (rw [Except.ok.injEq] at hok; subst hok;
        first
        | exact sizing_tail_approved_bounds _ _ _ _ happ
        | simp [reject] at happ)

/-- Witness for C3: default limits (FixedPercent), the benign snapshot,
entry 100, stop 95 yield the approved result c3_result, which satisfies all
three bounds. -/
theorem c3_witness :
    c3_result.position_size_usd ≤ demo_limits.max_position_size_usd ∧
    c3_result.position_size_usd
        ≤ demo_metrics.total_equity * demo_limits.max_position_size_percent / 100 ∧
    (0 < demo_metrics.total_equity →
      c3_result.position_size_percent ≤ demo_limits.max_position_size_percent) :=
  c3_approved_size_within_caps demo_limits demo_metrics 100 95 (7 / 10) c3_result
    (by norm_num [calculate_position_size, demo_limits, demo_metrics,
      sizing_tail, c3_result])
    rfl

/-- Taking a prefix of length n commutes with the leading-loss count:
the count over the first n entries is the full count capped at n. -/
theorem countLeadingLosses_take (n : Nat) (l : List ℚ) :
    countLeadingLosses (l.take n) = min (countLeadingLosses l) n := by
  induction l generalizing n with
  | nil => simp [countLeadingLosses]
  | cons p rest ih =>
    cases n with
    | zero => simp [countLeadingLosses]
    | succ k =>
      by_cases hp : p < 0
      · simp only [List.take_succ_cons, countLeadingLosses, if_pos hp, ih]
        omega
      · simp only [List.take_succ_cons, countLeadingLosses, if_neg hp]
        simp

/-- Counterexample for C5: with eleven consecutive losing trades, the
snapshot reports 10 (the ORM query is capped by limit(10)), while the
claimed full-history streak is 11. -/
theorem c5_counterexample :
    (get_portfolio_metrics [] (List.replicate 11 (-1 : ℚ)) 0 0 0).consecutive_losses
      ≠ consecutive_losses_spec (List.replicate 11 (-1 : ℚ)) := by
  decide

/-- Claim C5 as amended: the snapshot streak is the full-history streak
capped at 10 (the newest-first scan stops at the first non-loss and sees at
most the 10 most recent closed trades); it is 0 when there are no closed
trades and 0 when the most recent closed trade is a non-loss. -/
theorem c5_amended_consecutive_losses_capped (ot : List OpenTrade)
    (pnls : List ℚ) (d w mo : ℚ) :
    (get_portfolio_metrics ot pnls d w mo).consecutive_losses
        = min (consecutive_losses_spec pnls) 10 ∧
    (pnls = [] → (get_portfolio_metrics ot pnls d w mo).consecutive_losses = 0) ∧
    (∀ p rest, pnls = p :: rest → 0 ≤ p →
      (get_portfolio_metrics ot pnls d w mo).consecutive_losses = 0) := by
  have hmain : (get_portfolio_metrics ot pnls d w mo).consecutive_losses
      = min (consecutive_losses_spec pnls) 10 := by
    show consecutive_losses_of pnls = min (consecutive_losses_spec pnls) 10
    simp only [consecutive_losses_of, consecutive_losses_spec]
    exact countLeadingLosses_take 10 pnls
  refine ⟨hmain, ?_, ?_⟩
  · intro h; subst h; rfl
  · intro p rest h hp
    subst h
    rw [hmain]
    simp [consecutive_losses_spec, countLeadingLosses, not_lt.mpr hp]

/-- Witness for C5 at concrete histories: a newest-first history starting
with a win has streak 0, and equals the capped full-history count. -/
theorem c5_witness :
    (get_portfolio_metrics [] [(2 : ℚ), -1] 0 0 0).consecutive_losses
        = min (consecutive_losses_spec [(2 : ℚ), -1]) 10 ∧
    (get_portfolio_metrics [] [(2 : ℚ), -1] 0 0 0).consecutive_losses = 0 :=
  ⟨(c5_amended_consecutive_losses_capped [] [(2 : ℚ), -1] 0 0 0).1,
   (c5_amended_consecutive_losses_capped [] [(2 : ℚ), -1] 0 0 0).2.2
      2 [-1] rfl (by decide)⟩

/-- Summing f over a Bool-filtered list equals summing the if-guarded f
over the whole list. -/
theorem sum_filter_map_eq_sum_ite (p : OpenTrade → Bool) (f : OpenTrade → ℚ)
    (l : List OpenTrade) :
    ((l.filter p).map f).sum
      = (l.map (fun t => if p t then f t else 0)).sum := by
  induction l with
  | nil => rfl
  | cons a l ih =>
    by_cases h : p a = true
    · simp [List.filter_cons, h, ih]
    · simp [List.filter_cons, h, ih]

/-- Counterexample for C8: for a single open position with entry 2, stop 1
and size 10 on 100 equity, the snapshot heat is 10 but the per-unit form
gives 5, so the equivalence asserted by the claim fails. -/
theorem c8_counterexample :
    (get_portfolio_metrics [trade0] [] 0 0 0).portfolio_heat
      ≠ total_risk_per_unit [trade0]
          / (get_portfolio_metrics [trade0] [] 0 0 0).total_equity * 100 := by
  norm_num [get_portfolio_metrics, total_risk, total_risk_per_unit,
    position_risk, position_risk_per_unit, truthy, trade0]

/-- Claim C8 as amended: with positive equity, the snapshot heat is the
quote-denominated sum abs(size times (entry minus stop)) over open
positions, where positions with a missing (or zero, hence falsy) entry or
stop price contribute zero, divided by equity, times 100. The per-unit form
of the claim is not equivalent (see the counterexample). -/
theorem c8_amended_heat_quote_form (ot : List OpenTrade) (pnls : List ℚ)
    (d w mo : ℚ)
    (h : 0 < (get_portfolio_metrics ot pnls d w mo).total_equity) :
    (get_portfolio_metrics ot pnls d w mo).portfolio_heat
      = (ot.map (fun t =>
            if truthy t.entry_price && truthy t.stop_loss_price
            then position_risk t else 0)).sum
          / (get_portfolio_metrics ot pnls d w mo).total_equity * 100 := by
  have h2 : (0 : ℚ) <
      ((ot.map (fun t => t.margin_used.getD 0)).sum
        + (ot.map (fun t => t.unrealized_pnl.getD 0)).sum + d) := h
  simp only [get_portfolio_metrics, total_risk]
  rw [if_pos h2, sum_filter_map_eq_sum_ite]

/-- Witness for C8 at the concrete one-position portfolio (equity 100). -/
theorem c8_witness :
    (get_portfolio_metrics [trade0] [] 0 0 0).portfolio_heat
      = ([trade0].map (fun t =>
            if truthy t.entry_price && truthy t.stop_loss_price
            then position_risk t else 0)).sum
          / (get_portfolio_metrics [trade0] [] 0 0 0).total_equity * 100 :=
  c8_amended_heat_quote_form [trade0] [] 0 0 0
    (by norm_num [get_portfolio_metrics, trade0])

end StackAlpha
